import Mathlib

/-!
# Verification of `Utils/SimpleSetup` (OpenEngine SetupHelpers extension)

A shallow embedding of `src/Utils/SimpleSetup.{h,cpp}`.  Objects that the
C++ code manipulates by pointer identity (engine, environment, viewport,
cameras, frustums, HUD, FPS surfaces, shader loaders) are modelled by
allocation identifiers drawn from a counter threaded through the state;
caller-supplied objects are distinguished from internally allocated ones by
the `ObjRef` tag.  Event-channel attachments (`Attach` calls) are recorded
in program order in a trace, one entry per call, so that within-channel
delivery order and cross-channel program order are both observable.
-/

set_option maxRecDepth 10000

/-- A reference to an engine object: either supplied by the caller (`ext`)
or allocated internally by `SimpleSetup` (`alloc`, numbered by the
allocation counter). -/
inductive ObjRef where
  | ext (n : Nat)
  | alloc (n : Nat)
  deriving DecidableEq, Repr

/-- What a viewport's viewing volume (or a camera's wrapped volume) can be:
a caller-supplied `IViewingVolume`, an allocated
`PerspectiveViewingVolume`, a `Camera`, or a `Frustum`. -/
inductive VolRef where
  | extVol (n : Nat)
  | perspective (n : Nat)
  | camera (r : ObjRef)
  | frustum (n : Nat)
  deriving DecidableEq, Repr

/-- A `Display::Frustum` object: wraps one camera; `VisualizeClipping`
toggles its `visualizeClipping` flag. -/
structure FrustumObj where
  cam : ObjRef
  visualizeClipping : Bool
  deriving DecidableEq, Repr

/-- Kinds of scene-graph nodes occurring in `SimpleSetup`: a plain
`SceneNode`, a `DirectionalLightNode`, and a frustum visualization node
(`frustum->GetFrustumNode()`), tagged with the camera the frustum wraps. -/
inductive NodeKind where
  | plain
  | directionalLight
  | frustumVis (cam : Option ObjRef)
  deriving DecidableEq, Repr

/-- A scene graph (`ISceneNode` subtree): a node kind, the texture
resources held directly at this node, and the child subtrees. -/
inductive SceneG where
  | node (kind : NodeKind) (textures : List Nat) (children : List SceneG)

/-- The children of a scene node. -/
def childrenOf : SceneG → List SceneG
  | SceneG.node _ _ cs => cs

/-- `ISceneNode::AddNode`: append a child node. -/
def addChild : SceneG → SceneG → SceneG
  | SceneG.node k ts cs, c => SceneG.node k ts (cs ++ [c])

mutual
/-- All texture resources reachable from a scene node (the set that
`TextureLoader::Load(ISceneNode&)` discovers by scanning the subtree). -/
def texturesOf : SceneG → List Nat
  | SceneG.node _ ts cs => ts ++ texturesOfList cs

/-- Textures reachable from a list of subtrees. -/
def texturesOfList : List SceneG → List Nat
  | [] => []
  | c :: cs => texturesOf c ++ texturesOfList cs
end

/-- An entry in the texture loader's work queue: either a texture resource
discovered in a scene subtree, or an explicitly enqueued surface (the FPS
surface, enqueued by `ShowFPS` via `Load(fps, RELOAD_QUEUED)`). -/
inductive TexItem where
  | tex (n : Nat)
  | surface (id : Nat)
  deriving DecidableEq, Repr

/-- The event channels `SimpleSetup` attaches listeners to: the engine's
three lifecycle channels, the renderer's four sub-phase channels, and the
keyboard's key-event channel. -/
inductive Chan where
  | engineInit
  | engineProcess
  | engineDeinit
  | rInit
  | rPreProcess
  | rProcess
  | rPostProcess
  | keyEvent
  deriving DecidableEq, Repr

/-- Identities of the listeners `SimpleSetup` attaches.  Listeners that
exist once per setup are plain tags; listeners allocated per call
(`ShaderLoader`, `HUD`, `FPSSurface`) carry their allocation id. -/
inductive Listener where
  | envL
  | rendererL
  | lightRendererL
  | renderingViewL
  | textureLoaderL
  | textureLoadOnInitL
  | quitHandlerL
  | shaderLoaderL (id : Nat)
  | hudL (id : Nat)
  | fpsL (id : Nat)
  deriving DecidableEq, Repr

/-- Which default subsystem instances the constructor built (as opposed to
using a caller-supplied instance). -/
inductive DefKind where
  | engineD
  | envD
  | viewportD
  | cameraD
  | frustumD
  | perspectiveD
  | sceneD
  | lightD
  | rendererD
  | textureLoaderD
  | renderingViewD
  | lightRendererD
  deriving DecidableEq, Repr

/-- Log messages emitted through the logger. -/
inductive LogMsg where
  | error (msg : String)
  | info (msg : String)
  deriving DecidableEq, Repr

/-- Association-list lookup by key (pointer dereference in the model's
heaps). -/
def lookupA {β : Type} : List (Nat × β) → Nat → Option β
  | [], _ => none
  | p :: t, n => if p.1 = n then some p.2 else lookupA t n

/-- The state of a `SimpleSetup` object: its member pointers, the heaps of
cameras and frustums it can reach, the texture loader's queue, the
attachment trace of every event channel, and the log. -/
structure SetupState where
  nextId : Nat
  title : String
  engineRef : ObjRef
  envRef : ObjRef
  envDims : Option (Nat × Nat)
  viewportRef : ObjRef
  rendererRef : ObjRef
  renderingViewRef : ObjRef
  constructed : List DefKind
  scene : SceneG
  rendererSceneRoot : Option SceneG
  cameraRef : ObjRef
  cameras : List (Nat × VolRef)
  frustum : Nat
  frustums : List (Nat × FrustumObj)
  deletedFrustums : List Nat
  viewportVol : Option VolRef
  hud : Option Nat
  hudSurfaces : List (Nat × Nat)
  tlQueue : List TexItem
  tlLoadCalls : Nat
  shaderLoaders : List (Nat × SceneG)
  trace : List (Chan × Listener)
  log : List LogMsg

/-- The default scene populated by the constructor: a `SceneNode` with a
single `DirectionalLightNode` child (`SimpleSetup.cpp` lines 147-148). -/
def defaultScene : SceneG :=
  SceneG.node NodeKind.plain [] [SceneG.node NodeKind.directionalLight [] []]

/-- The constructor `SimpleSetup::SimpleSetup(title, vp, env, rv, eng)` as
defined in `SimpleSetup.cpp` lines 101-168.  Optional arguments model the
`NULL`-defaulted pointers of the defined constructor: viewport,
environment, rendering view and engine.  The defined constructor has no
renderer parameter: `renderer = new Renderer(viewport)` runs
unconditionally (line 151).  Internally allocated objects get fixed ids:
engine 0, environment 1, viewport 2, perspective volume 3, camera 4,
frustum 5, renderer 6, rendering view 7; the counter resumes at 8. -/
def mkSetup (title : String) (vp env rv eng : Option Nat) : SetupState :=
  { nextId := 8
    title := title
    engineRef := match eng with | some e => ObjRef.ext e | none => ObjRef.alloc 0
    envRef := match env with | some e => ObjRef.ext e | none => ObjRef.alloc 1
    envDims := match env with | some _ => none | none => some (800, 600)
    viewportRef := match vp with | some v => ObjRef.ext v | none => ObjRef.alloc 2
    rendererRef := ObjRef.alloc 6
    renderingViewRef := match rv with | some r => ObjRef.ext r | none => ObjRef.alloc 7
    constructed :=
      (match eng with | some _ => [] | none => [DefKind.engineD]) ++
      (match env with | some _ => [] | none => [DefKind.envD]) ++
      (match vp with | some _ => [] | none => [DefKind.viewportD]) ++
      [DefKind.perspectiveD, DefKind.cameraD, DefKind.frustumD,
       DefKind.sceneD, DefKind.lightD,
       DefKind.rendererD, DefKind.textureLoaderD] ++
      (match rv with | some _ => [] | none => [DefKind.renderingViewD]) ++
      [DefKind.lightRendererD]
    scene := defaultScene
    rendererSceneRoot := some defaultScene
    cameraRef := ObjRef.alloc 4
    cameras := [(4, VolRef.perspective 3)]
    frustum := 5
    frustums := [(5, { cam := ObjRef.alloc 4, visualizeClipping := false })]
    deletedFrustums := []
    viewportVol := some (VolRef.frustum 5)
    hud := none
    hudSurfaces := []
    tlQueue := []
    tlLoadCalls := 0
    shaderLoaders := []
    trace :=
      [(Chan.engineInit, Listener.envL),
       (Chan.engineProcess, Listener.envL),
       (Chan.engineDeinit, Listener.envL),
       (Chan.engineInit, Listener.rendererL),
       (Chan.engineProcess, Listener.rendererL),
       (Chan.engineDeinit, Listener.rendererL),
       (Chan.rPreProcess, Listener.lightRendererL),
       (Chan.rProcess, Listener.renderingViewL),
       (Chan.rInit, Listener.textureLoadOnInitL),
       (Chan.rPreProcess, Listener.textureLoaderL),
       (Chan.keyEvent, Listener.quitHandlerL)]
    log := [] }

/-- `SimpleSetup::GetScene`. -/
def getScene (s : SetupState) : SceneG := s.scene

/-- `SimpleSetup::GetCamera`. -/
def getCamera (s : SetupState) : ObjRef := s.cameraRef

/-- `SimpleSetup::GetEngine`. -/
def getEngine (s : SetupState) : ObjRef := s.engineRef

/-- `SimpleSetup::SetScene` (`SimpleSetup.cpp` lines 252-260): store the
scene, update the renderer's scene root, scan the subtree for textures
(`textureloader->Load(scene)`), then allocate a `ShaderLoader` scoped to
the scene and attach it to the engine's Initialize channel. -/
def setScene (s : SetupState) (sc : SceneG) : SetupState :=
  { s with
    scene := sc
    rendererSceneRoot := some sc
    tlQueue := s.tlQueue ++ (texturesOf sc).map TexItem.tex
    tlLoadCalls := s.tlLoadCalls + 1
    shaderLoaders := s.shaderLoaders ++ [(s.nextId, sc)]
    trace := s.trace ++ [(Chan.engineInit, Listener.shaderLoaderL s.nextId)]
    nextId := s.nextId + 1 }

/-- `SimpleSetup::SetCamera(Camera&)` (`SimpleSetup.cpp` lines 275-280):
`camera = &volume; delete frustum; frustum = new Frustum(*camera);
viewport->SetViewingVolume(frustum)`. -/
def setCameraCam (s : SetupState) (c : Nat) : SetupState :=
  { s with
    cameraRef := ObjRef.ext c
    deletedFrustums := s.deletedFrustums ++ [s.frustum]
    frustums := (s.frustums.filter (fun p => p.1 != s.frustum)) ++
      [(s.nextId, { cam := ObjRef.ext c, visualizeClipping := false })]
    frustum := s.nextId
    viewportVol := some (VolRef.frustum s.nextId)
    nextId := s.nextId + 1 }

/-- `SimpleSetup::SetCamera(IViewingVolume&)` (`SimpleSetup.cpp` lines
289-292): `camera = new Camera(volume);
viewport->SetViewingVolume(camera)`.  The frustum member is not touched. -/
def setCameraVol (s : SetupState) (v : Nat) : SetupState :=
  { s with
    cameras := s.cameras ++ [(s.nextId, VolRef.extVol v)]
    cameraRef := ObjRef.alloc s.nextId
    viewportVol := some (VolRef.camera (ObjRef.alloc s.nextId))
    nextId := s.nextId + 1 }

/-- `SimpleSetup::GetHUD` (`SimpleSetup.cpp` lines 316-323): if the `hud`
member is null, allocate a `HUD` and attach it to the renderer's
post-process channel; return the member. -/
def getHUD (s : SetupState) : Nat × SetupState :=
  match s.hud with
  | some h => (h, s)
  | none =>
    (s.nextId,
      { s with
        nextId := s.nextId + 1
        hud := some s.nextId
        trace := s.trace ++ [(Chan.rPostProcess, Listener.hudL s.nextId)] })

/-- `TextureLoadOnInit::Handle` (`SimpleSetup.cpp` lines 76-79): if the
renderer's scene root is non-null, call `tl.Load(*root)`; otherwise do
nothing. -/
def textureLoadOnInitHandle (s : SetupState) : SetupState :=
  match s.rendererSceneRoot with
  | some root =>
    { s with
      tlQueue := s.tlQueue ++ (texturesOf root).map TexItem.tex
      tlLoadCalls := s.tlLoadCalls + 1 }
  | none => s

/-- `Frustum::VisualizeClipping(true)` on the frustum with the given id. -/
def setVisualizeClipping (fs : List (Nat × FrustumObj)) (fid : Nat) :
    List (Nat × FrustumObj) :=
  fs.map (fun p =>
    if p.1 = fid then (p.1, { p.2 with visualizeClipping := true }) else p)

/-- The camera wrapped by the `frustum` member, if that frustum is live. -/
def frustumCamera (s : SetupState) : Option ObjRef :=
  (lookupA s.frustums s.frustum).map FrustumObj.cam

/-- `SimpleSetup::ShowFPS` (`SimpleSetup.cpp` lines 360-369): create an
`FPSSurface`, enqueue it in the texture loader (`Load(fps,
RELOAD_QUEUED)`), attach it to the engine's Process channel, then create a
HUD surface for it via `GetHUD().CreateSurface(fps)` (positioned top
left). -/
def showFPS (s : SetupState) : SetupState :=
  let fpsId := s.nextId
  let s1 :=
    { s with
      nextId := s.nextId + 1
      tlQueue := s.tlQueue ++ [TexItem.surface fpsId]
      tlLoadCalls := s.tlLoadCalls + 1
      trace := s.trace ++ [(Chan.engineProcess, Listener.fpsL fpsId)] }
  let s2 := (getHUD s1).2
  { s2 with
    nextId := s2.nextId + 1
    hudSurfaces := s2.hudSurfaces ++ [(s2.nextId, fpsId)] }

/-- `SimpleSetup::EnableDebugging` (`SimpleSetup.cpp` lines 336-358):
enable frustum clipping visualization, add the frustum's visualization
node to the scene, then try to open `scene.dot` — on failure log an error,
on success write the dot graph and log two info messages — and finally
call `ShowFPS`.  `fileOk` models whether the `ofstream` opened
successfully. -/
def enableDebugging (s : SetupState) (fileOk : Bool) : SetupState :=
  let s1 := { s with frustums := setVisualizeClipping s.frustums s.frustum }
  let s2 :=
    { s1 with
      scene := addChild s1.scene
        (SceneG.node (NodeKind.frustumVis (frustumCamera s1)) [] []) }
  let s3 :=
    if fileOk then
      { s2 with log := s2.log ++
        [LogMsg.info "Saved physics graph to scene.dot",
         LogMsg.info "To create a SVG image run: dot -Tsvg scene.dot > scene.svg"] }
    else
      { s2 with log := s2.log ++
        [LogMsg.error "Can not open scene.dot for output"] }
  showFPS s3

/-- Modelled from the spec: the default placement of
`Display::PerspectiveViewingVolume` (OpenEngine core, not part of this
repository): positioned at the origin. -/
def perspectiveDefaultPosition : Int × Int × Int := (0, 0, 0)

/-- Modelled from the spec: the default orientation of
`Display::PerspectiveViewingVolume` (OpenEngine core, not part of this
repository): facing along the negative z-axis, the canonical forward
axis. -/
def perspectiveDefaultDirection : Int × Int × Int := (0, 0, -1)

/-- Modelled from the spec: the placement (position, forward direction) of
a camera reference, as determined by the volume it wraps.
`Display::Camera` is a viewing-volume decorator from the OpenEngine core
(not part of this repository); a camera wrapping a default
`PerspectiveViewingVolume` sits at that volume's default placement. -/
def cameraPlacement (s : SetupState) (c : ObjRef) :
    Option ((Int × Int × Int) × (Int × Int × Int)) :=
  match c with
  | ObjRef.ext _ => none
  | ObjRef.alloc n =>
    match lookupA s.cameras n with
    | some (VolRef.perspective _) =>
      some (perspectiveDefaultPosition, perspectiveDefaultDirection)
    | _ => none

/-- Listener `b` was attached to its channel after listener `a` was
attached to its channel (program order of the `Attach` calls). -/
def attachedBefore (tr : List (Chan × Listener)) (a b : Chan × Listener) :
    Prop :=
  a ∈ tr ∧ b ∈ tr ∧ tr.indexOf a < tr.indexOf b

instance (tr : List (Chan × Listener)) (a b : Chan × Listener) :
    Decidable (attachedBefore tr a b) := by
  unfold attachedBefore
  infer_instance

/-- The number of times a HUD has been attached to the renderer's
post-process channel. -/
def hudAttachCount (tr : List (Chan × Listener)) : Nat :=
  tr.countP (fun p =>
    match p with
    | (Chan.rPostProcess, Listener.hudL _) => true
    | _ => false)

/-- Iterate `GetHUD` (discarding the returned reference). -/
def getHUDn : Nat → SetupState → SetupState
  | 0, s => s
  | n + 1, s => getHUDn n (getHUD s).2

/-! ## Helper lemmas -/

theorem lookupA_append_right {β : Type} (l : List (Nat × β)) (n : Nat) (x : β)
    (h : lookupA l n = none) : lookupA (l ++ [(n, x)]) n = some x := by
  induction l with
  | nil => simp [lookupA]
  | cons p t ih =>
    simp only [List.cons_append, lookupA] at h ⊢
    split at h
    · exact absurd h (by simp)
    · rename_i hne
      rw [if_neg hne]
      exact ih h

theorem lookupA_filter_none {β : Type} (l : List (Nat × β))
    (q : Nat × β → Bool) (n : Nat) (h : lookupA l n = none) :
    lookupA (l.filter q) n = none := by
  induction l with
  | nil => simp [lookupA]
  | cons p t ih =>
    simp only [lookupA] at h
    split at h
    · exact absurd h (by simp)
    · rename_i hne
      by_cases hq : q p
      · simpa [List.filter, hq, lookupA, hne] using ih h
      · simpa [List.filter, hq] using ih h

theorem lookupA_setVis (fs : List (Nat × FrustumObj)) (fid : Nat) :
    lookupA (setVisualizeClipping fs fid) fid =
      (lookupA fs fid).map (fun f => { f with visualizeClipping := true }) := by
  induction fs with
  | nil => rfl
  | cons p t ih =>
    by_cases h : p.1 = fid
    · simp [setVisualizeClipping, lookupA, h]
    · simp only [setVisualizeClipping, List.map_cons] at ih ⊢
      simp [lookupA, h, ih]

theorem childrenOf_addChild (g c : SceneG) :
    childrenOf (addChild g c) = childrenOf g ++ [c] := by
  cases g
  rfl

theorem mkSetup_trace (t : String) (vp env rv eng : Option Nat) :
    (mkSetup t vp env rv eng).trace =
      [(Chan.engineInit, Listener.envL),
       (Chan.engineProcess, Listener.envL),
       (Chan.engineDeinit, Listener.envL),
       (Chan.engineInit, Listener.rendererL),
       (Chan.engineProcess, Listener.rendererL),
       (Chan.engineDeinit, Listener.rendererL),
       (Chan.rPreProcess, Listener.lightRendererL),
       (Chan.rProcess, Listener.renderingViewL),
       (Chan.rInit, Listener.textureLoadOnInitL),
       (Chan.rPreProcess, Listener.textureLoaderL),
       (Chan.keyEvent, Listener.quitHandlerL)] := rfl

theorem getHUD_stable (s : SetupState) (h : Nat) (hh : s.hud = some h) :
    getHUD s = (h, s) := by
  simp [getHUD, hh]

theorem getHUDn_stable (n : Nat) (s : SetupState) (h : Nat)
    (hh : s.hud = some h) : getHUDn n s = s := by
  induction n with
  | zero => rfl
  | succ k ih => simp [getHUDn, getHUD_stable s h hh, ih]

/-! ## Claim theorems -/

/-- C1 counterexample: calling `SetCamera` with an arbitrary viewing
volume on a freshly constructed setup installs the *newly constructed
camera* as the viewport's active viewing volume, not the supplied volume
itself — refuting the claim that the viewport's active volume is the
volume `v` itself. -/
theorem C1_counterexample :
    (setCameraVol (mkSetup "t" none none none none) 5).viewportVol ≠
      some (VolRef.extVol 5) ∧
    (setCameraVol (mkSetup "t" none none none none) 5).viewportVol =
      some (VolRef.camera
        (getCamera (setCameraVol (mkSetup "t" none none none none) 5))) := by
  decide

/-- C1 (amended): for every viewing volume `v`, after
`SetCamera(v)` (the `IViewingVolume` overload) the camera member is a
newly constructed camera wrapping `v`, and the viewport's active viewing
volume is that new camera — not a frustum, and not `v` directly. -/
theorem C1_setCameraVol_installs_new_camera (s : SetupState) (v : Nat)
    (hfresh : lookupA s.cameras s.nextId = none) :
    getCamera (setCameraVol s v) = ObjRef.alloc s.nextId ∧
    lookupA (setCameraVol s v).cameras s.nextId = some (VolRef.extVol v) ∧
    (setCameraVol s v).viewportVol =
      some (VolRef.camera (getCamera (setCameraVol s v))) ∧
    (∀ fid, (setCameraVol s v).viewportVol ≠ some (VolRef.frustum fid)) ∧
    (setCameraVol s v).viewportVol ≠ some (VolRef.extVol v) := by
  refine ⟨rfl, ?_, rfl, ?_, ?_⟩
  · simpa [setCameraVol] using
      lookupA_append_right s.cameras s.nextId (VolRef.extVol v) hfresh
  · intro fid
    simp [setCameraVol]
  · simp [setCameraVol]

/-- C1 witness: the amended theorem applied to the default setup and the
caller-supplied volume 7. -/
theorem C1_witness :
    getCamera (setCameraVol (mkSetup "t" none none none none) 7) =
      ObjRef.alloc 8 :=
  (C1_setCameraVol_installs_new_camera (mkSetup "t" none none none none) 7
    (by decide)).1

/-- C2: behavior of the constructor that `SimpleSetup.cpp` actually
defines.  The environment, rendering view and engine are taken from the
caller when supplied (and default-constructed exactly when not supplied),
but the renderer is *always* default-constructed: the defined constructor
has no renderer parameter, so no caller-supplied renderer can ever be
used, contradicting the claim (and the header's declared signature). -/
theorem C2_renderer_always_default (t : String) (vp env rv eng : Option Nat) :
    getEngine (mkSetup t vp env rv eng) =
      (match eng with | some e => ObjRef.ext e | none => ObjRef.alloc 0) ∧
    (DefKind.engineD ∈ (mkSetup t vp env rv eng).constructed ↔ eng = none) ∧
    (mkSetup t vp env rv eng).envRef =
      (match env with | some e => ObjRef.ext e | none => ObjRef.alloc 1) ∧
    (DefKind.envD ∈ (mkSetup t vp env rv eng).constructed ↔ env = none) ∧
    (mkSetup t vp env rv eng).renderingViewRef =
      (match rv with | some r => ObjRef.ext r | none => ObjRef.alloc 7) ∧
    (DefKind.renderingViewD ∈ (mkSetup t vp env rv eng).constructed ↔
      rv = none) ∧
    (mkSetup t vp env rv eng).rendererRef = ObjRef.alloc 6 ∧
    DefKind.rendererD ∈ (mkSetup t vp env rv eng).constructed := by
  cases vp <;> cases env <;> cases rv <;> cases eng <;>
    simp [mkSetup, getEngine]

/-- C3: the constructor's attachment sequence.  The renderer is attached
to the engine's Initialize, Process and Deinitialize channels in that
order; on the renderer's pre-process channel the lighting stage is
attached before the texture-loader drain; and the rendering view is
attached to the renderer's process channel. -/
theorem C3_attachment_order (t : String) (vp env rv eng : Option Nat) :
    attachedBefore (mkSetup t vp env rv eng).trace
      (Chan.engineInit, Listener.rendererL)
      (Chan.engineProcess, Listener.rendererL) ∧
    attachedBefore (mkSetup t vp env rv eng).trace
      (Chan.engineProcess, Listener.rendererL)
      (Chan.engineDeinit, Listener.rendererL) ∧
    attachedBefore (mkSetup t vp env rv eng).trace
      (Chan.rPreProcess, Listener.lightRendererL)
      (Chan.rPreProcess, Listener.textureLoaderL) ∧
    (Chan.rProcess, Listener.renderingViewL) ∈
      (mkSetup t vp env rv eng).trace := by
  rw [mkSetup_trace]
  decide

/-- C4: after `SetScene(S)` the scene member and the renderer's scene root
both equal `S`, the texture loader's queue contains every texture
reachable from `S`, and a newly allocated shader-loading listener scoped
to `S` has been attached to the engine's Initialize channel (freshness of
the allocation id is the hypothesis). -/
theorem C4_setScene (s : SetupState) (sc : SceneG)
    (hfresh : (Chan.engineInit, Listener.shaderLoaderL s.nextId) ∉ s.trace)
    (hfresh2 : lookupA s.shaderLoaders s.nextId = none) :
    getScene (setScene s sc) = sc ∧
    (setScene s sc).rendererSceneRoot = some sc ∧
    (∀ tx, tx ∈ texturesOf sc → TexItem.tex tx ∈ (setScene s sc).tlQueue) ∧
    (setScene s sc).tlLoadCalls = s.tlLoadCalls + 1 ∧
    (setScene s sc).trace =
      s.trace ++ [(Chan.engineInit, Listener.shaderLoaderL s.nextId)] ∧
    (setScene s sc).trace.count
      (Chan.engineInit, Listener.shaderLoaderL s.nextId) = 1 ∧
    lookupA (setScene s sc).shaderLoaders s.nextId = some sc := by
  refine ⟨rfl, rfl, ?_, rfl, rfl, ?_, ?_⟩
  · intro tx htx
    simp only [setScene, List.mem_append]
    exact Or.inr (List.mem_map_of_mem TexItem.tex htx)
  · have h0 : s.trace.count
        (Chan.engineInit, Listener.shaderLoaderL s.nextId) = 0 :=
      List.count_eq_zero.mpr hfresh
    show (s.trace ++ [(Chan.engineInit, Listener.shaderLoaderL s.nextId)]).count
        (Chan.engineInit, Listener.shaderLoaderL s.nextId) = 1
    rw [List.count_append, h0]
    simp
  · simpa [setScene] using
      lookupA_append_right s.shaderLoaders s.nextId sc hfresh2

/-- C4 witness: setting a one-node scene holding texture 42 on the default
setup enqueues texture 42. -/
theorem C4_witness :
    TexItem.tex 42 ∈
      (setScene (mkSetup "t" none none none none)
        (SceneG.node NodeKind.plain [42] [])).tlQueue :=
  (C4_setScene (mkSetup "t" none none none none)
    (SceneG.node NodeKind.plain [42] []) (by decide) rfl).2.2.1
    42 (by decide)

/-- C5: `GetHUD` is lazy and idempotent.  From a state in which no HUD
exists and none was ever attached, the first call allocates the HUD and
attaches it to the renderer's post-process channel; after any number of
further calls, `GetHUD` still returns the same HUD id and the HUD has been
attached to the post-process channel exactly once. -/
theorem C5_getHUD (s : SetupState) (n : Nat)
    (h0 : s.hud = none) (h1 : hudAttachCount s.trace = 0) :
    (getHUD s).1 = s.nextId ∧
    ((getHUD s).2).hud = some s.nextId ∧
    hudAttachCount ((getHUD s).2).trace = 1 ∧
    (getHUD (getHUDn n (getHUD s).2)).1 = s.nextId ∧
    hudAttachCount (getHUDn n (getHUD s).2).trace = 1 := by
  have hcall : getHUD s =
      (s.nextId,
        { s with
          nextId := s.nextId + 1
          hud := some s.nextId
          trace := s.trace ++ [(Chan.rPostProcess, Listener.hudL s.nextId)] }) := by
    simp [getHUD, h0]
  have hcount :
      hudAttachCount
        (s.trace ++ [(Chan.rPostProcess, Listener.hudL s.nextId)]) = 1 := by
    unfold hudAttachCount at h1 ⊢
    rw [List.countP_append, h1]
    simp
  have hstable := getHUDn_stable n (getHUD s).2 s.nextId (by rw [hcall])
  refine ⟨by rw [hcall], by rw [hcall], ?_, ?_, ?_⟩
  · rw [hcall]
    exact hcount
  · rw [hstable, getHUD_stable (getHUD s).2 s.nextId (by rw [hcall])]
  · rw [hstable, hcall]
    exact hcount

/-- C5 witness: on the default setup, after the first call and three
further calls, `GetHUD` still returns the HUD allocated by the first call
(id 8). -/
theorem C5_witness :
    (getHUD (getHUDn 3 (getHUD (mkSetup "t" none none none none)).2)).1 = 8 :=
  (C5_getHUD (mkSetup "t" none none none none) 3 (by decide)
    (by decide)).2.2.2.1

/-- C6: `SetCamera(c)` (the `Camera&` overload) discards the previously
installed frustum (its id joins the deleted list), constructs a fresh
frustum wrapping `c`, and installs that frustum as the viewport's active
viewing volume, which is therefore non-null and derives from the most
recently installed camera. -/
theorem C6_setCameraCam (s : SetupState) (c : Nat)
    (hfresh : lookupA s.frustums s.nextId = none) :
    (setCameraCam s c).deletedFrustums = s.deletedFrustums ++ [s.frustum] ∧
    (setCameraCam s c).frustum = s.nextId ∧
    lookupA (setCameraCam s c).frustums (setCameraCam s c).frustum =
      some { cam := ObjRef.ext c, visualizeClipping := false } ∧
    (setCameraCam s c).viewportVol =
      some (VolRef.frustum (setCameraCam s c).frustum) ∧
    getCamera (setCameraCam s c) = ObjRef.ext c ∧
    frustumCamera (setCameraCam s c) = some (getCamera (setCameraCam s c)) := by
  have hf : lookupA (s.frustums.filter (fun p => p.1 != s.frustum))
      s.nextId = none :=
    lookupA_filter_none s.frustums (fun p => p.1 != s.frustum) s.nextId hfresh
  have hl : lookupA (setCameraCam s c).frustums s.nextId =
      some { cam := ObjRef.ext c, visualizeClipping := false } := by
    simpa [setCameraCam] using
      lookupA_append_right (s.frustums.filter (fun p => p.1 != s.frustum))
        s.nextId { cam := ObjRef.ext c, visualizeClipping := false } hf
  refine ⟨rfl, rfl, hl, rfl, rfl, ?_⟩
  unfold frustumCamera
  rw [show (setCameraCam s c).frustum = s.nextId from rfl, hl]
  rfl

/-- C6 witness: the theorem applied to the default setup and camera 9. -/
theorem C6_witness :
    getCamera (setCameraCam (mkSetup "t" none none none none) 9) =
      ObjRef.ext 9 :=
  (C6_setCameraCam (mkSetup "t" none none none none) 9 (by decide)).2.2.2.2.1

/-- C7: the deferred texture-discovery listener.  When its `Handle` fires,
if the renderer's scene root is non-null the texture loader scans that
subtree and enqueues its textures (one `Load` call); if the scene root is
null the state is unchanged — in particular no `Load` call is made. -/
theorem C7_textureLoadOnInit (s : SetupState) :
    (∀ root, s.rendererSceneRoot = some root →
      (textureLoadOnInitHandle s).tlQueue =
        s.tlQueue ++ (texturesOf root).map TexItem.tex ∧
      (textureLoadOnInitHandle s).tlLoadCalls = s.tlLoadCalls + 1) ∧
    (s.rendererSceneRoot = none → textureLoadOnInitHandle s = s) := by
  constructor
  · intro root hr
    rw [textureLoadOnInitHandle, hr]
    exact ⟨rfl, rfl⟩
  · intro hn
    rw [textureLoadOnInitHandle, hn]

/-- C7 witness: on the default setup (whose scene root is the default
scene) the listener performs exactly one `Load` call. -/
theorem C7_witness :
    (textureLoadOnInitHandle (mkSetup "t" none none none none)).tlLoadCalls =
      1 :=
  ((C7_textureLoadOnInit (mkSetup "t" none none none none)).1
    defaultScene rfl).2

theorem enableDebugging_scene (s : SetupState) (b : Bool) :
    (enableDebugging s b).scene =
      addChild s.scene
        (SceneG.node
          (NodeKind.frustumVis (frustumCamera
            { s with frustums := setVisualizeClipping s.frustums s.frustum }))
          [] []) := by
  cases hh : s.hud <;> cases b <;>
    simp [enableDebugging, showFPS, getHUD, hh]

theorem frustumCamera_setVis (s : SetupState) :
    frustumCamera
      { s with frustums := setVisualizeClipping s.frustums s.frustum } =
      frustumCamera s := by
  unfold frustumCamera
  show (lookupA (setVisualizeClipping s.frustums s.frustum) s.frustum).map _ =
    _
  rw [lookupA_setVis]
  cases lookupA s.frustums s.frustum <;> rfl

/-- C8: enabling debugging when the diagram-export file cannot be opened
is non-fatal.  An error diagnostic is logged (and nothing else is logged —
the export is skipped), the frustum's visualization node is still added to
the scene, and the frame-rate overlay is still enabled: the FPS surface is
enqueued in the texture loader, attached to the engine's Process channel,
the HUD exists, and a HUD surface for the FPS surface was created. -/
theorem C8_enableDebugging_nonfatal (s : SetupState) :
    (enableDebugging s false).log =
      s.log ++ [LogMsg.error "Can not open scene.dot for output"] ∧
    (∃ ct, childrenOf (enableDebugging s false).scene =
      childrenOf s.scene ++ [SceneG.node (NodeKind.frustumVis ct) [] []]) ∧
    TexItem.surface s.nextId ∈ (enableDebugging s false).tlQueue ∧
    (Chan.engineProcess, Listener.fpsL s.nextId) ∈
      (enableDebugging s false).trace ∧
    (∃ h, (enableDebugging s false).hud = some h) ∧
    (∃ sid, (sid, s.nextId) ∈ (enableDebugging s false).hudSurfaces) := by
  refine ⟨?_, ⟨_, by rw [enableDebugging_scene, childrenOf_addChild]⟩,
    ?_, ?_, ?_, ?_⟩ <;>
    cases hh : s.hud <;>
      simp [enableDebugging, showFPS, getHUD, hh]

/-- C9: constructing the setup with no overrides yields a default
environment of size 800×600, a default camera wrapping a fresh perspective
volume placed at the origin and facing the canonical forward axis
(0,0,-1), and a default scene consisting of a root node with exactly one
directional-light child. -/
theorem C9_default_construction (t : String) :
    (mkSetup t none none none none).envDims = some (800, 600) ∧
    DefKind.envD ∈ (mkSetup t none none none none).constructed ∧
    cameraPlacement (mkSetup t none none none none)
      (getCamera (mkSetup t none none none none)) =
      some ((0, 0, 0), (0, 0, -1)) ∧
    getScene (mkSetup t none none none none) =
      SceneG.node NodeKind.plain []
        [SceneG.node NodeKind.directionalLight [] []] := by
  refine ⟨rfl, ?_, rfl, rfl⟩
  simp [mkSetup]

/-- C10: the `IViewingVolume` overload of `SetCamera` leaves the frustum
member untouched.  After installing camera `c` (building a frustum around
it) and then calling `SetCamera` with a viewing volume `v`, the frustum
member, the frustum heap and the deleted list are unchanged: the frustum
still wraps the replaced camera `c` while the current camera is the newly
allocated one, and a subsequent `EnableDebugging` adds a visualization
node derived from `c` — not from the current camera. -/
theorem C10_setCameraVol_keeps_stale_frustum (s : SetupState) (c v : Nat)
    (hfresh : lookupA s.frustums s.nextId = none) :
    (setCameraVol (setCameraCam s c) v).frustum =
      (setCameraCam s c).frustum ∧
    (setCameraVol (setCameraCam s c) v).frustums =
      (setCameraCam s c).frustums ∧
    (setCameraVol (setCameraCam s c) v).deletedFrustums =
      (setCameraCam s c).deletedFrustums ∧
    frustumCamera (setCameraVol (setCameraCam s c) v) =
      some (ObjRef.ext c) ∧
    getCamera (setCameraVol (setCameraCam s c) v) ≠ ObjRef.ext c ∧
    ∀ b, childrenOf
        (enableDebugging (setCameraVol (setCameraCam s c) v) b).scene =
      childrenOf (setCameraVol (setCameraCam s c) v).scene ++
        [SceneG.node (NodeKind.frustumVis (some (ObjRef.ext c))) [] []] := by
  have hf : lookupA (setCameraCam s c).frustums s.nextId =
      some { cam := ObjRef.ext c, visualizeClipping := false } := by
    simpa [setCameraCam] using
      lookupA_append_right (s.frustums.filter (fun p => p.1 != s.frustum))
        s.nextId { cam := ObjRef.ext c, visualizeClipping := false }
        (lookupA_filter_none s.frustums (fun p => p.1 != s.frustum)
          s.nextId hfresh)
  have hfc : frustumCamera (setCameraVol (setCameraCam s c) v) =
      some (ObjRef.ext c) := by
    unfold frustumCamera
    rw [show (setCameraVol (setCameraCam s c) v).frustum = s.nextId from rfl]
    rw [show (setCameraVol (setCameraCam s c) v).frustums =
      (setCameraCam s c).frustums from rfl, hf]
    rfl
  refine ⟨rfl, rfl, rfl, hfc, ?_, ?_⟩
  · simp [getCamera, setCameraVol]
  · intro b
    rw [enableDebugging_scene, childrenOf_addChild, frustumCamera_setVis, hfc]

/-- C10 witness: on the default setup, after installing camera 9 and then
a viewing volume 11, the frustum member still wraps camera 9. -/
theorem C10_witness :
    frustumCamera
      (setCameraVol (setCameraCam (mkSetup "t" none none none none) 9) 11) =
      some (ObjRef.ext 9) :=
  (C10_setCameraVol_keeps_stale_frustum (mkSetup "t" none none none none)
    9 11 (by decide)).2.2.2.1
